import Mathlib

/-!
Shallow embedding of the PyPOTS imputation wrappers:
  * `_USGAN.forward` from `pypots/imputation/usgan/core.py`, and
  * the `SAITS` class from `pypots/imputation/saits/model.py`
    (`__init__`, `fit`, `predict`, `impute`).

The external deep-learning modules (`BackboneUSGAN`, `_SAITS`) and the data
pipeline (`DatasetForSAITS`, `BaseDataset`, `DataLoader`) live outside this
repository's own code; they are embedded as abstract function parameters.
Python dicts that the repository's own code builds key by key are embedded as
association lists of string keys; exceptions as `Except`; logger warnings as
explicit values.  Tensors whose leading dimension is the sample axis are
embedded as lists of per-sample values, so that `torch.cat` /
`np.concatenate` along that axis becomes `List.flatten`.
-/

/-- Exceptions raised by the embedded code paths. -/
inductive PyError where
  | assertionError
  | valueError
deriving DecidableEq, Repr

/-- Warnings the embedded code emits through the logger. -/
inductive PyWarning where
  | d_model_mismatch
  | d_model_reset
  | deprecationWarning
deriving DecidableEq, Repr

/-! ## USGAN (`pypots/imputation/usgan/core.py`) -/

/-- A value stored in the dict returned by `_USGAN.forward`: either an imputed
tensor or a loss value. -/
inductive USGANVal (τ lo : Type) where
  | tensor (t : τ)
  | loss (l : lo)
deriving DecidableEq

/-- The external `BackboneUSGAN` module (imported from `pypots.nn.modules.usgan`,
not part of the provided sources).  Called as `backbone(inputs, training_object,
training)`: it returns a pair `(imputed_data, loss)` when `training` is `True`
and just the imputed data when `training` is `False`, which is how
`_USGAN.forward` destructures its result. -/
structure BackboneUSGAN (ι τ lo : Type) where
  runTrain : ι → String → τ × lo
  runEval : ι → String → τ

/-- Embedding of `_USGAN.forward(inputs, training_object, training)`.
The Python body asserts `training_object` is `"generator"` or
`"discriminator"`, then builds `results` as a dict: in training mode it calls
the backbone (binding the loss as `discrimination_loss` or `generation_loss`
depending on `training_object`) and stores it under `"loss"`; in either mode it
stores the backbone's imputed data under `"imputed_data"` last. -/
def USGAN.forward {ι τ lo : Type} (b : BackboneUSGAN ι τ lo) (inputs : ι)
    (training_object : String) (training : Bool) :
    Except PyError (List (String × USGANVal τ lo)) :=
  if training_object = "generator" ∨ training_object = "discriminator" then
    let results : List (String × USGANVal τ lo) := []
    if training then
      if training_object = "discriminator" then
        let out := b.runTrain inputs training_object
        let results := results ++ [("loss", USGANVal.loss out.2)]
        Except.ok (results ++ [("imputed_data", USGANVal.tensor out.1)])
      else
        let out := b.runTrain inputs training_object
        let results := results ++ [("loss", USGANVal.loss out.2)]
        Except.ok (results ++ [("imputed_data", USGANVal.tensor out.1)])
    else
      let imputed_data := b.runEval inputs training_object
      Except.ok (results ++ [("imputed_data", USGANVal.tensor imputed_data)])
  else
    Except.error PyError.assertionError

/-- A concrete backbone over trivial types, used to instantiate the USGAN
theorems at concrete inputs. -/
def egBackbone : BackboneUSGAN Unit Nat Nat where
  runTrain := fun _ _ => (1, 2)
  runEval := fun _ _ => 3

/-! ## SAITS (`pypots/imputation/saits/model.py`) -/

/-- The constructor arguments of `SAITS.__init__` that its own body uses
(the ones it forwards to `BaseNNImputer.__init__`, such as `batch_size` and
`device`, play no role in the claims and are omitted).  Python ints are
embedded as `Int`; the float-valued dropout rates are kept at an abstract
type `F`, since `__init__` only stores them. -/
structure SAITSArgs (F : Type) where
  n_steps : Int
  n_features : Int
  n_layers : Int
  d_model : Int
  d_ffn : Int
  n_heads : Int
  d_k : Int
  d_v : Int
  dropout : F
  attn_dropout : F
  diagonal_attention_mask : Bool
  ORT_weight : Int
  MIT_weight : Int

/-- The arguments `SAITS.__init__` passes to the external `_SAITS` module
constructor (`self.model = _SAITS(...)`), in the source's order. -/
structure InnerSAITS (F : Type) where
  n_layers : Int
  n_steps : Int
  n_features : Int
  d_model : Int
  d_ffn : Int
  n_heads : Int
  d_k : Int
  d_v : Int
  dropout : F
  attn_dropout : F
  diagonal_attention_mask : Bool
  ORT_weight : Int
  MIT_weight : Int

/-- The attributes `SAITS.__init__` stores on `self`, the inner `_SAITS`
model it builds, and the warnings it logged. -/
structure SAITSState (F : Type) where
  n_steps : Int
  n_features : Int
  n_layers : Int
  d_model : Int
  d_ffn : Int
  n_heads : Int
  d_k : Int
  d_v : Int
  dropout : F
  attn_dropout : F
  diagonal_attention_mask : Bool
  ORT_weight : Int
  MIT_weight : Int
  model : InnerSAITS F
  warnings : List PyWarning

/-- Embedding of `SAITS.__init__`: if `d_model != n_heads * d_k` it logs two
warnings and resets the local `d_model` to `n_heads * d_k`; it then stores the
hyperparameters as attributes and builds the inner `_SAITS` from the stored
values. -/
def SAITS.init {F : Type} (a : SAITSArgs F) : SAITSState F :=
  let reset := if a.d_model ≠ a.n_heads * a.d_k then
      (a.n_heads * a.d_k, [PyWarning.d_model_mismatch, PyWarning.d_model_reset])
    else (a.d_model, ([] : List PyWarning))
  { n_steps := a.n_steps
    n_features := a.n_features
    n_layers := a.n_layers
    d_model := reset.1
    d_ffn := a.d_ffn
    n_heads := a.n_heads
    d_k := a.d_k
    d_v := a.d_v
    dropout := a.dropout
    attn_dropout := a.attn_dropout
    diagonal_attention_mask := a.diagonal_attention_mask
    ORT_weight := a.ORT_weight
    MIT_weight := a.MIT_weight
    model :=
      { n_layers := a.n_layers
        n_steps := a.n_steps
        n_features := a.n_features
        d_model := reset.1
        d_ffn := a.d_ffn
        n_heads := a.n_heads
        d_k := a.d_k
        d_v := a.d_v
        dropout := a.dropout
        attn_dropout := a.attn_dropout
        diagonal_attention_mask := a.diagonal_attention_mask
        ORT_weight := a.ORT_weight
        MIT_weight := a.MIT_weight }
    warnings := reset.2 }

/-- Modelled from the spec: `check_X_ori_in_val_set` comes from
`pypots.data.checking`, which is not among the provided sources; per its name
and the `ValueError` message in `SAITS.fit`, it decides whether the validation
set contains the key `"X_ori"`.  A validation set is embedded by its list of
keys. -/
def check_X_ori_in_val_set (val_set : List String) : Bool :=
  val_set.contains "X_ori"

/-- The externally observable steps `SAITS.fit` performs, in order.  `S` is
the type of model state dicts. -/
inductive FitEvent (S : Type) where
  | makeTrainingLoader
  | makeValLoader
  | trainModel
  | loadStateDict (sd : S)
  | evalMode
  | autoSaveModel (confirm_saving : Bool)
deriving DecidableEq

/-- Embedding of `SAITS.fit` as the trace of steps it performs.
`best_model_dict` stands for the state dict `_train_model` records as best.
Step 1 builds the training loader, then, if `val_set` is given, raises
`ValueError` unless `check_X_ori_in_val_set` holds, else builds the validation
loader; step 2 trains, loads the best state dict and switches to eval mode;
step 3 calls `_auto_save_model_if_necessary(confirm_saving=True)`. -/
def SAITS.fit {S : Type} (best_model_dict : S)
    (val_set : Option (List String)) : Except PyError (List (FitEvent S)) :=
  match val_set with
  | none =>
    Except.ok [FitEvent.makeTrainingLoader, FitEvent.trainModel,
      FitEvent.loadStateDict best_model_dict, FitEvent.evalMode,
      FitEvent.autoSaveModel true]
  | some vs =>
    if check_X_ori_in_val_set vs then
      Except.ok [FitEvent.makeTrainingLoader, FitEvent.makeValLoader,
        FitEvent.trainModel, FitEvent.loadStateDict best_model_dict,
        FitEvent.evalMode, FitEvent.autoSaveModel true]
    else
      Except.error PyError.valueError

/-- The dict the external `_SAITS.forward` returns for one batch in eval mode,
restricted to the keys `SAITS.predict` reads.  Each tensor is a list of
per-sample values. -/
structure SAITSForwardOut (σ : Type) where
  imputed_data : List σ
  first_DMSA_attn_weights : List σ
  second_DMSA_attn_weights : List σ
  combining_weights : List σ

/-- The external pieces `SAITS.predict` / `SAITS.impute` run over: loading a
test set (`BaseDataset` + `DataLoader` + `_assemble_input_for_testing`, given
the set and the `file_type`) into a list of batches `β`, and the inner model's
`forward(inputs, diagonal_attention_mask, training)`. -/
structure SAITSRuntime (δ β σ : Type) where
  load_test : δ → String → List β
  forward : β → Bool → Bool → SAITSForwardOut σ

/-- The four collector lists `SAITS.predict` fills while iterating over the
test loader. -/
structure Collectors (σ : Type) where
  imputation_collector : List (List σ)
  first_DMSA_attn_weights_collector : List (List σ)
  second_DMSA_attn_weights_collector : List (List σ)
  combining_weights_collector : List (List σ)

/-- The batch loop of `SAITS.predict`: for each batch it calls
`model.forward(inputs, diagonal_attention_mask, training=False)`, always
appends the imputed data, and appends the three latent tensors only when
`return_latent_vars` is set. -/
def SAITS.collect {δ β σ : Type} (rt : SAITSRuntime δ β σ)
    (diagonal_attention_mask return_latent_vars : Bool) :
    List β → Collectors σ
  | [] =>
    { imputation_collector := []
      first_DMSA_attn_weights_collector := []
      second_DMSA_attn_weights_collector := []
      combining_weights_collector := [] }
  | batch :: rest =>
    let results := rt.forward batch diagonal_attention_mask false
    let c := SAITS.collect rt diagonal_attention_mask return_latent_vars rest
    if return_latent_vars then
      { imputation_collector := results.imputed_data :: c.imputation_collector
        first_DMSA_attn_weights_collector :=
          results.first_DMSA_attn_weights :: c.first_DMSA_attn_weights_collector
        second_DMSA_attn_weights_collector :=
          results.second_DMSA_attn_weights :: c.second_DMSA_attn_weights_collector
        combining_weights_collector :=
          results.combining_weights :: c.combining_weights_collector }
    else
      { c with imputation_collector := results.imputed_data :: c.imputation_collector }

/-- A value in the dict `SAITS.predict` returns: either an array, or the
nested dict of latent variables. -/
inductive PredVal (σ : Type) where
  | arr (a : List σ)
  | dict (d : List (String × List σ))

/-- Embedding of `SAITS.predict(test_set, file_type, diagonal_attention_mask,
return_latent_vars)`: it loads the test set into batches, runs the batch loop,
concatenates the imputation collector under the key `"imputation"`, and, when
`return_latent_vars` is set, adds under `"latent_vars"` the dict of the three
concatenated latent collectors. -/
def SAITS.predict {δ β σ : Type} (rt : SAITSRuntime δ β σ) (test_set : δ)
    (file_type : String) (diagonal_attention_mask return_latent_vars : Bool) :
    List (String × PredVal σ) :=
  let c := SAITS.collect rt diagonal_attention_mask return_latent_vars
    (rt.load_test test_set file_type)
  let result_dict := [("imputation", PredVal.arr c.imputation_collector.flatten)]
  if return_latent_vars then
    result_dict ++ [("latent_vars", PredVal.dict
      [("first_DMSA_attn_weights", c.first_DMSA_attn_weights_collector.flatten),
       ("second_DMSA_attn_weights", c.second_DMSA_attn_weights_collector.flatten),
       ("combining_weights", c.combining_weights_collector.flatten)])]
  else
    result_dict

/-- Embedding of `SAITS.impute(X, file_type)`: it logs a deprecation warning,
calls `self.predict(X, file_type=file_type)` — so with `predict`'s default
`diagonal_attention_mask=True` and `return_latent_vars=False` — and returns
`results_dict["imputation"]`. -/
def SAITS.impute {δ β σ : Type} (rt : SAITSRuntime δ β σ) (X : δ)
    (file_type : String) : List PyWarning × Option (PredVal σ) :=
  let results_dict := SAITS.predict rt X file_type true false
  ([PyWarning.deprecationWarning], List.lookup "imputation" results_dict)

/-- What the spec says `SAITS.impute` computes: the `"imputation"` entry of
`predict(X, file_type)` called with its default `diagonal_attention_mask=True`
and `return_latent_vars=False`.  Stated from the spec's words, to be compared
with the embedding of the source. -/
def imputeSpec {δ β σ : Type} (rt : SAITSRuntime δ β σ) (X : δ)
    (file_type : String) : Option (PredVal σ) :=
  List.lookup "imputation" (SAITS.predict rt X file_type true false)

/-! ## Theorems -/

/-- C1: for every inputs dict and valid `training_object`, `_USGAN.forward`
returns a dict containing the key `"imputed_data"`, and containing the key
`"loss"` iff `training` is `True`. -/
theorem usgan_forward_result_keys {ι τ lo : Type} (b : BackboneUSGAN ι τ lo)
    (inputs : ι) (training_object : String) (training : Bool)
    (h : training_object = "generator" ∨ training_object = "discriminator") :
    ∃ d, USGAN.forward b inputs training_object training = Except.ok d ∧
      (List.lookup "imputed_data" d).isSome = true ∧
      ((List.lookup "loss" d).isSome = true ↔ training = true) := by
  rcases h with h | h <;> subst h <;> cases training <;>
    simp [USGAN.forward, List.lookup]

/-- Witness for C1 at a concrete backbone and arguments. -/
theorem usgan_forward_result_keys_witness :
    ∃ d, USGAN.forward egBackbone () "generator" true = Except.ok d ∧
      (List.lookup "imputed_data" d).isSome = true ∧
      ((List.lookup "loss" d).isSome = true ↔ true = true) :=
  usgan_forward_result_keys egBackbone () "generator" true (Or.inl rfl)

/-- C3: in training mode `_USGAN.forward` dispatches the `"loss"` entry by
`training_object`: it is the backbone's discrimination loss for
`"discriminator"` and the backbone's generation loss for `"generator"`, both
the second component of what `backbone(inputs, training_object, True)`
returns. -/
theorem usgan_forward_loss_dispatch {ι τ lo : Type} (b : BackboneUSGAN ι τ lo)
    (inputs : ι) :
    (∃ d, USGAN.forward b inputs "discriminator" true = Except.ok d ∧
      List.lookup "loss" d =
        some (USGANVal.loss (b.runTrain inputs "discriminator").2)) ∧
    (∃ d, USGAN.forward b inputs "generator" true = Except.ok d ∧
      List.lookup "loss" d =
        some (USGANVal.loss (b.runTrain inputs "generator").2)) := by
  constructor <;> refine ⟨_, rfl, ?_⟩ <;> simp [List.lookup]

/-- C4: for any `training_object` other than `"generator"` and
`"discriminator"`, `_USGAN.forward` raises `AssertionError` before the
backbone is invoked: the result is the error, and it is the same whatever
backbone the module holds, so no backbone computation occurs. -/
theorem usgan_forward_invalid_object {ι τ lo : Type} (b : BackboneUSGAN ι τ lo)
    (inputs : ι) (training_object : String) (training : Bool)
    (h1 : training_object ≠ "generator") (h2 : training_object ≠ "discriminator") :
    USGAN.forward b inputs training_object training =
      Except.error PyError.assertionError ∧
    ∀ b2 : BackboneUSGAN ι τ lo,
      USGAN.forward b2 inputs training_object training =
        USGAN.forward b inputs training_object training := by
  constructor
  · simp [USGAN.forward, h1, h2]
  · intro b2
    simp [USGAN.forward, h1, h2]

/-- Witness for C4 at the concrete invalid `training_object` `"critic"`. -/
theorem usgan_forward_invalid_object_witness :
    USGAN.forward egBackbone () "critic" true =
      Except.error PyError.assertionError ∧
    ∀ b2 : BackboneUSGAN Unit Nat Nat,
      USGAN.forward b2 () "critic" true =
        USGAN.forward egBackbone () "critic" true :=
  usgan_forward_invalid_object egBackbone () "critic" true
    (by decide) (by decide)

/-- C10: the `"imputed_data"` entry of `_USGAN.forward`'s result is exactly
the imputed data the backbone returns for the same inputs, training_object and
training flag, untransformed. -/
theorem usgan_forward_imputed_from_backbone {ι τ lo : Type}
    (b : BackboneUSGAN ι τ lo) (inputs : ι) (training_object : String)
    (training : Bool)
    (h : training_object = "generator" ∨ training_object = "discriminator") :
    ∃ d, USGAN.forward b inputs training_object training = Except.ok d ∧
      List.lookup "imputed_data" d =
        some (USGANVal.tensor (if training then (b.runTrain inputs training_object).1
          else b.runEval inputs training_object)) := by
  rcases h with h | h <;> subst h <;> cases training <;>
    refine ⟨_, rfl, ?_⟩ <;> simp [List.lookup]

/-- Witness for C10 at a concrete backbone and arguments. -/
theorem usgan_forward_imputed_from_backbone_witness :
    ∃ d, USGAN.forward egBackbone () "discriminator" false = Except.ok d ∧
      List.lookup "imputed_data" d =
        some (USGANVal.tensor (if false then (egBackbone.runTrain () "discriminator").1
          else egBackbone.runEval () "discriminator")) :=
  usgan_forward_imputed_from_backbone egBackbone () "discriminator" false
    (Or.inr rfl)

/-- C2: after `SAITS.__init__`, the stored attribute `d_model` always equals
`n_heads * d_k`; when the passed `d_model` differs, the constructor does not
raise but logs the mismatch and reset warnings and resets `d_model` before
building the inner `_SAITS`, which therefore also receives `n_heads * d_k`. -/
theorem saits_init_d_model_invariant {F : Type} (a : SAITSArgs F) :
    (SAITS.init a).d_model = a.n_heads * a.d_k ∧
    (SAITS.init a).model.d_model = a.n_heads * a.d_k ∧
    (a.d_model ≠ a.n_heads * a.d_k →
      (SAITS.init a).warnings =
        [PyWarning.d_model_mismatch, PyWarning.d_model_reset]) ∧
    (a.d_model = a.n_heads * a.d_k → (SAITS.init a).warnings = []) := by
  by_cases h : a.d_model = a.n_heads * a.d_k <;> simp [SAITS.init, h]

/-- C9: `SAITS.__init__` stores every other constructor hyperparameter
unchanged as the attribute of the same name; only `d_model` may differ from
its argument. -/
theorem saits_init_stores_args {F : Type} (a : SAITSArgs F) :
    (SAITS.init a).n_steps = a.n_steps ∧
    (SAITS.init a).n_features = a.n_features ∧
    (SAITS.init a).n_layers = a.n_layers ∧
    (SAITS.init a).d_ffn = a.d_ffn ∧
    (SAITS.init a).n_heads = a.n_heads ∧
    (SAITS.init a).d_k = a.d_k ∧
    (SAITS.init a).d_v = a.d_v ∧
    (SAITS.init a).dropout = a.dropout ∧
    (SAITS.init a).attn_dropout = a.attn_dropout ∧
    (SAITS.init a).diagonal_attention_mask = a.diagonal_attention_mask ∧
    (SAITS.init a).ORT_weight = a.ORT_weight ∧
    (SAITS.init a).MIT_weight = a.MIT_weight := by
  simp [SAITS.init]

/-- C5: `SAITS.fit` raises `ValueError` iff a validation set is given and it
does not contain the key `"X_ori"`; with no validation set the check is
skipped and training proceeds without ever building a validation loader. -/
theorem saits_fit_val_check {S : Type} (best : S)
    (val_set : Option (List String)) :
    ((SAITS.fit best val_set = Except.error PyError.valueError) ↔
      (∃ ks, val_set = some ks ∧ ks.contains "X_ori" = false)) ∧
    (val_set = none →
      ∃ tr, SAITS.fit best val_set = Except.ok tr ∧
        FitEvent.makeValLoader ∉ tr) := by
  cases val_set with
  | none => simp [SAITS.fit]
  | some ks =>
    by_cases h : ks.contains "X_ori" = true <;>
      simp [SAITS.fit, check_X_ori_in_val_set, h]

/-- C8: on every successful run of `SAITS.fit`, the trace ends with — in this
order — the training loop, loading the recorded best model state dict,
switching the model to eval mode, and only then the automatic checkpoint save
invoked with `confirm_saving=True`. -/
theorem saits_fit_finalize_order {S : Type} (best : S)
    (val_set : Option (List String)) (tr : List (FitEvent S))
    (h : SAITS.fit best val_set = Except.ok tr) :
    ∃ pre, tr = pre ++ [FitEvent.trainModel, FitEvent.loadStateDict best,
      FitEvent.evalMode, FitEvent.autoSaveModel true] := by
  cases val_set with
  | none =>
    refine ⟨[FitEvent.makeTrainingLoader], ?_⟩
    simp [SAITS.fit] at h
    simp [h]
  | some ks =>
    by_cases hc : check_X_ori_in_val_set ks = true
    · refine ⟨[FitEvent.makeTrainingLoader, FitEvent.makeValLoader], ?_⟩
      simp [SAITS.fit, hc] at h
      simp [h]
    · simp [SAITS.fit, hc] at h

/-- Witness for C8 at a concrete state dict and no validation set. -/
theorem saits_fit_finalize_order_witness :
    ∃ pre, [FitEvent.makeTrainingLoader, FitEvent.trainModel,
        FitEvent.loadStateDict (0 : Nat), FitEvent.evalMode,
        FitEvent.autoSaveModel true] =
      pre ++ [FitEvent.trainModel, FitEvent.loadStateDict (0 : Nat),
        FitEvent.evalMode, FitEvent.autoSaveModel true] :=
  saits_fit_finalize_order (0 : Nat) none _ rfl

/-- C7: the dict `SAITS.predict` returns always contains `"imputation"`, and
contains `"latent_vars"` — holding the three concatenated latent collectors
`first_DMSA_attn_weights`, `second_DMSA_attn_weights` and
`combining_weights` — iff `return_latent_vars` is `True`. -/
theorem saits_predict_result_keys {δ β σ : Type} (rt : SAITSRuntime δ β σ)
    (test_set : δ) (file_type : String)
    (diagonal_attention_mask return_latent_vars : Bool) :
    (List.lookup "imputation" (SAITS.predict rt test_set file_type
      diagonal_attention_mask return_latent_vars)).isSome = true ∧
    List.lookup "latent_vars" (SAITS.predict rt test_set file_type
        diagonal_attention_mask return_latent_vars) =
      (if return_latent_vars then
        some (PredVal.dict
          [("first_DMSA_attn_weights",
            (SAITS.collect rt diagonal_attention_mask return_latent_vars
              (rt.load_test test_set file_type)).first_DMSA_attn_weights_collector.flatten),
           ("second_DMSA_attn_weights",
            (SAITS.collect rt diagonal_attention_mask return_latent_vars
              (rt.load_test test_set file_type)).second_DMSA_attn_weights_collector.flatten),
           ("combining_weights",
            (SAITS.collect rt diagonal_attention_mask return_latent_vars
              (rt.load_test test_set file_type)).combining_weights_collector.flatten)])
       else none) := by
  cases return_latent_vars <;> simp [SAITS.predict, List.lookup]

/-- C6: `SAITS.impute` computes exactly the `"imputation"` entry of
`SAITS.predict` called on the same data and file type with `predict`'s
default `diagonal_attention_mask=True` and `return_latent_vars=False`,
differing only in the extra deprecation warning; that entry is the
concatenated imputation array. -/
theorem saits_impute_refines_predict {δ β σ : Type} (rt : SAITSRuntime δ β σ)
    (X : δ) (file_type : String) :
    (SAITS.impute rt X file_type).2 = imputeSpec rt X file_type ∧
    (SAITS.impute rt X file_type).1 = [PyWarning.deprecationWarning] ∧
    (SAITS.impute rt X file_type).2 =
      some (PredVal.arr (SAITS.collect rt true false
        (rt.load_test X file_type)).imputation_collector.flatten) := by
  refine ⟨rfl, rfl, ?_⟩
  simp [SAITS.impute, SAITS.predict, List.lookup]
